import Mathlib

/-!
Shallow embedding of the interception pipeline and proxy-lifecycle layer of
selenium-wire-2 (packages `seleniumwire2` and `seleniumwire`), together with
theorems settling the frozen claims about it.

Conventions of the embedding:
* Python byte strings are modelled as Lean `String`s (no claim depends on the
  byte/str distinction).
* Header collections are ordered lists of (name, value) pairs, duplicates
  preserved, matching the capture record shapes of the spec.
* Python regular-expression matching (`re.match(pattern, url)`) is abstracted
  as an arbitrary boolean function `RegexMatch` from pattern and url; every
  scope decision is parametric in it.
* Mutation of Python objects becomes explicit state passing: each mitmproxy
  hook maps a flow and a storage state to updated ones.
* `datetime.fromtimestamp` is abstracted as the identity on an integer
  timestamp (the derivation is injective; no claim inspects the date value).
-/

/-- Abstraction of `re.match(pattern, url)`: a boolean function of the
pattern and the url. -/
abbrev RegexMatch := String → String → Bool

/-- One record of `mitmproxy`'s `server_conn.certificate_list`, kept opaque:
the handler copies the list verbatim and no claim inspects a field. -/
structure TlsCertificate where
  data : String
deriving DecidableEq

/-- Modelled from the spec: `seleniumwire2.request.Response` (the module
`seleniumwire2/request.py` is absent from src). Fields follow the capture
record shape of spec section 6: status code, reason phrase, ordered header
list, body bytes, TLS certificate records. -/
structure Response where
  status_code : Int
  reason : String
  headers : List (String × String)
  body : String
  certificate_list : List TlsCertificate := []
deriving DecidableEq

/-- Modelled from the spec: `seleniumwire2.request.Request` (the module
`seleniumwire2/request.py` is absent from src). Fields follow the capture
record shape of spec section 6 plus the correlation id assigned at capture
and the optional attached response used by the mock-response path of the
handler. -/
structure Request where
  id : Option Nat := none
  method : String
  url : String
  headers : List (String × String)
  body : String
  response : Option Response := none
deriving DecidableEq

/-- Modelled from the spec: `seleniumwire2.request.WebSocketMessage`
(absent from src): direction flag, content, timestamp. The `date` field
stands for `datetime.fromtimestamp(timestamp)`. -/
structure WebSocketMessage where
  from_client : Bool
  content : String
  date : Nat
deriving DecidableEq

/-- A raw message of `mitmproxy`'s `flow.websocket.messages`. -/
structure WsRawMessage where
  from_client : Bool
  content : String
  timestamp : Nat
deriving DecidableEq

/-- The mutable request object of a live `mitmproxy` flow. -/
structure MitmRequest where
  method : String
  url : String
  headers : List (String × String)
  raw_content : String
deriving DecidableEq

/-- The mutable response object of a live `mitmproxy` flow. -/
structure MitmResponse where
  status_code : Int
  reason : String
  headers : List (String × String)
  raw_content : String
deriving DecidableEq

/-- A live `mitmproxy` `HTTPFlow` as seen by the handler: the outgoing
request, the correlation id dynamically attached by
`setattr(flow.request, "id", ...)`, the optional response, the optional
websocket message stream, and the server connection's certificate list. -/
structure HTTPFlow where
  request : MitmRequest
  reqId : Option Nat := none
  response : Option MitmResponse := none
  websocket : Option (List WsRawMessage) := none
  serverCerts : List TlsCertificate := []
deriving DecidableEq

/-- Modelled from the spec: a HAR entry (module `seleniumwire2/har.py` is
absent from src) is a derived read-only snapshot of one exchange, here the
flow it was derived from. -/
structure HarEntry where
  flow : HTTPFlow
deriving DecidableEq

/-- Modelled from the spec: `har.create_har_entry(flow)` derives a HAR entry
from the flow (spec sections 3 and 4.2); the claims only require that a
derived entry is persisted, so the derivation is the snapshot itself. -/
def create_har_entry (flow : HTTPFlow) : HarEntry := ⟨flow⟩

/-- Modelled from the spec: the capture store (module
`seleniumwire2/storage.py` is absent from src). Spec section 4.3: save
request assigns and returns an id; responses, websocket messages and HAR
entries are saved keyed by that id; requests are kept in stable insertion
order. -/
structure Storage where
  nextId : Nat := 0
  requests : List (Nat × Request) := []
  responses : List (Nat × Response) := []
  wsMessages : List (Nat × WebSocketMessage) := []
  harEntries : List (Nat × HarEntry) := []
deriving DecidableEq

/-- Modelled from the spec: `storage.save_request` assigns a fresh
correlation id to the request, appends the record in capture order, and
returns the id. -/
def Storage.save_request (st : Storage) (r : Request) : Nat × Storage :=
  (st.nextId,
   { st with
       nextId := st.nextId + 1,
       requests := st.requests ++ [(st.nextId, { r with id := some st.nextId })] })

/-- Modelled from the spec: `storage.save_response i r` persists a response
keyed by the correlation id `i`. -/
def Storage.save_response (st : Storage) (i : Nat) (r : Response) : Storage :=
  { st with responses := st.responses ++ [(i, r)] }

/-- Modelled from the spec: `storage.save_ws_message i m` persists a
websocket message keyed by the correlation id `i`. -/
def Storage.save_ws_message (st : Storage) (i : Nat) (m : WebSocketMessage) : Storage :=
  { st with wsMessages := st.wsMessages ++ [(i, m)] }

/-- Modelled from the spec: `storage.save_har_entry i e` persists a HAR
entry keyed by the correlation id `i`. -/
def Storage.save_har_entry (st : Storage) (i : Nat) (e : HarEntry) : Storage :=
  { st with harEntries := st.harEntries ++ [(i, e)] }

/-- The one-occurrence replacement at character-list level: scan left to
right, replace the leftmost occurrence of `old`, leave the rest untouched. -/
def replaceFirstAux (old new : List Char) : List Char → List Char
  | [] => []
  | c :: cs =>
    if old.isPrefixOf (c :: cs) then new ++ List.drop old.length (c :: cs)
    else c :: replaceFirstAux old new cs

/-- Python's `s.replace(old, new, 1)`: replace the leftmost occurrence of
`old` in `s` by `new` (for empty `old`, Python prepends `new`). -/
def replaceFirst (old new s : String) : String :=
  if old.data = [] then ⟨new.data ++ s.data⟩
  else ⟨replaceFirstAux old.data new.data s.data⟩

/-- The state of the `MitmProxy` object that the handler reads: scope
configuration, registered interceptors, and the relevant options
(`ignore_http_methods`, `enable_har`). The response interceptor carries the
parameter count of the underlying Python callable (checked at registration
by `InspectRequestsMixin`). -/
structure PyCallable2 where
  params : Nat
  fn : Request → Response → Response

structure ProxyCtx where
  ignore_http_methods : List String := ["OPTIONS"]
  include_urls : List String := []
  exclude_urls : List String := []
  request_interceptor : Option (Request → Request) := none
  response_interceptor : Option PyCallable2 := none
  enable_har : Bool := false

namespace InterceptRequestHandler

/-- `InterceptRequestHandler._create_request`: snapshot the live request
(method, url, ordered headers, body with `None` collapsed to empty) and
attach the given response. -/
def create_request (flow : HTTPFlow) (response : Option Response := none) : Request :=
  { method := flow.request.method,
    url := flow.request.url,
    headers := flow.request.headers,
    body := flow.request.raw_content,
    response := response }

/-- `InterceptRequestHandler._to_headers_obj`: rebuild a mitmproxy `Headers`
object from (name, value) pairs; utf-8 encoding and `str` conversion are the
identity in this model. -/
def to_headers_obj (headers : List (String × String)) : List (String × String) :=
  headers

/-- `mitmproxy.http.Response.make(status_code, content, headers)`: a fresh
response with empty reason phrase. -/
def mitmResponseMake (status_code : Int) (content : String)
    (headers : List (String × String)) : MitmResponse :=
  { status_code := status_code, reason := "", headers := headers, raw_content := content }

/-- `InterceptRequestHandler._should_capture`, verbatim from the source:
ignored methods first, then the empty-configuration shortcut, the literal
`".*"` catch-all in the exclude list, the include scan, the exclude scan. -/
def should_capture (rm : RegexMatch) (ctx : ProxyCtx) (request : Request) : Bool :=
  if request.method ∈ ctx.ignore_http_methods then false
  else
    let inc := ctx.include_urls
    let exc := ctx.exclude_urls
    if inc = [] ∧ exc = [] then true
    else if ".*" ∈ exc then false
    else
      let included := inc.any fun i => rm i request.url
      if inc ≠ [] ∧ ¬included then false
      else if exc.any fun e => rm e request.url then false
      else true

/-- `InterceptRequestHandler.request`: snapshot, scope check, request
interceptor (mock-response short circuit or write-back with the one-shot
`wss://` → `https://` rewrite), persistence, correlation-id attachment, and
persistence of a mock response under the same id. -/
def request (rm : RegexMatch) (ctx : ProxyCtx) (flow : HTTPFlow) (st : Storage) :
    HTTPFlow × Storage :=
  let req := create_request flow
  if ¬ should_capture rm ctx req then (flow, st)
  else
    let req := match ctx.request_interceptor with
      | some f => f req
      | none => req
    let flow := match ctx.request_interceptor, req.response with
      | some _, some resp =>
        { flow with
            response := some (mitmResponseMake resp.status_code resp.body resp.headers) }
      | some _, none =>
        { flow with
            request :=
              { method := req.method,
                url := replaceFirst "wss://" "https://" req.url,
                headers := to_headers_obj req.headers,
                raw_content := req.body } }
      | none, _ => flow
    let saved := st.save_request req
    let flow := { flow with reqId := some saved.1 }
    let st := saved.2
    let st := match req.response with
      | some resp => st.save_response saved.1 resp
      | none => st
    (flow, st)

/-- `InterceptRequestHandler._create_response`: snapshot the live response
(status, reason, ordered headers with duplicates, body) and the server
connection's certificate list; the source asserts the response exists. -/
def create_response (mresp : MitmResponse) (certs : List TlsCertificate) : Response :=
  { status_code := mresp.status_code,
    reason := mresp.reason,
    headers := mresp.headers,
    body := mresp.raw_content,
    certificate_list := certs }

/-- `InterceptRequestHandler.response`: return unchanged when the flow has
no correlation id; otherwise snapshot the response, run the response
interceptor (writing mutations back into the live response), persist the
response under the request's id, and persist a HAR entry under the same id
when HAR capture is enabled. Returns `none` on the source's assertion
failure (response hook fired with no response on the flow). -/
def response (ctx : ProxyCtx) (flow : HTTPFlow) (st : Storage) :
    Option (HTTPFlow × Storage) :=
  match flow.reqId with
  | none => some (flow, st)
  | some i =>
    match flow.response with
    | none => none
    | some mresp =>
      let resp := create_response mresp flow.serverCerts
      let updated : HTTPFlow × Response := match ctx.response_interceptor with
        | some f =>
          let resp := f.fn (create_request flow (some resp)) resp
          ({ flow with
               response := some
                 { status_code := resp.status_code,
                   reason := resp.reason,
                   headers := to_headers_obj resp.headers,
                   raw_content := resp.body } },
           resp)
        | none => (flow, resp)
      let st := st.save_response i updated.2
      let st := if ctx.enable_har then st.save_har_entry i (create_har_entry updated.1) else st
      some (updated.1, st)

/-- `InterceptRequestHandler.websocket_message`: when the originating
request has a correlation id and the flow has a websocket stream, build and
persist a `WebSocketMessage` for every message currently in the stream. -/
def websocket_message (flow : HTTPFlow) (st : Storage) : Storage :=
  match flow.reqId, flow.websocket with
  | some i, some msgs =>
    msgs.foldl
      (fun st m =>
        st.save_ws_message i
          { from_client := m.from_client, content := m.content, date := m.timestamp })
      st
  | _, _ => st

end InterceptRequestHandler

/-- The result of `urllib.request._parse_proxy` on an upstream proxy url:
scheme, optional embedded user name, optional embedded password, and the
`host:port` part. Url parsing itself is the standard library's, external to
this repository; the derivation below consumes its parsed output. -/
structure ProxyConf where
  scheme : String
  username : Option String := none
  password : Option String := none
  hostport : String
deriving DecidableEq

/-- `seleniumwire.options.ProxyConfig` after url parsing: the optional http
and https upstream targets. -/
structure ProxyConfig where
  http : Option ProxyConf := none
  https : Option ProxyConf := none
deriving DecidableEq

/-- The argument map produced by `get_mitm_upstream_proxy_args`: the
optional `mode` entry and the optional `upstream_auth` entry. -/
structure UpstreamArgs where
  mode : Option String := none
  upstream_auth : Option String := none
deriving DecidableEq

/-- Python's f-string rendering of an optional value: `None` prints as the
four characters `None`. -/
def pyFormat : Option String → String
  | none => "None"
  | some s => s

/-- The `args[MITM_MODE]`/`args[MITM_UPSTREAM_AUTH]` assignments of
`get_mitm_upstream_proxy_args` for a chosen upstream configuration: the
single mode string, and the auth pair exactly when a non-empty user name is
embedded. -/
def upstreamArgsOf (conf : ProxyConf) : UpstreamArgs :=
  { mode := some ("upstream:" ++ conf.scheme ++ "://" ++ conf.hostport),
    upstream_auth :=
      match conf.username with
      | some u => if u = "" then none else some (u ++ ":" ++ pyFormat conf.password)
      | none => none }

/-- `seleniumwire.utils.get_mitm_upstream_proxy_args`: empty map without an
upstream config; with both http and https targets their `host:port` must
agree (`ValueError` otherwise) and the https one is used; with one target
that one is used. -/
def get_mitm_upstream_proxy_args (upstream_proxy : Option ProxyConfig) :
    Except String UpstreamArgs :=
  match upstream_proxy with
  | none => .ok {}
  | some cfg =>
    match cfg.http, cfg.https with
    | some http_proxy, some https_proxy =>
      if http_proxy.hostport ≠ https_proxy.hostport then
        .error "Different settings for http and https proxy servers not supported"
      else .ok (upstreamArgsOf https_proxy)
    | some http_proxy, none => .ok (upstreamArgsOf http_proxy)
    | none, some https_proxy => .ok (upstreamArgsOf https_proxy)
    | none, none => .ok {}

/-- The mitmproxy engine instance owned by `MitmProxy`, at its interface
boundary (the engine itself is an external collaborator): whether its
processing loop runs, the bound listen address once running, and the
upstream arguments it was constructed with. -/
structure EngineMaster where
  running : Bool := false
  bound : Option (String × Nat) := none
  upstreamArgs : UpstreamArgs := {}
deriving DecidableEq

/-- The state of a `seleniumwire2.server.MitmProxy` instance: the host/port
and upstream target of its options, the engine instance, and the capture
store created once in `__init__`. -/
structure MitmProxyState where
  host : String
  port : Nat
  upstream_proxy : Option ProxyConfig := none
  master : EngineMaster := {}
  storage : Storage := {}
deriving DecidableEq

namespace MitmProxy

/-- `MitmProxy._init_master`: construct a fresh engine instance (not yet
running) configured from the current options, deriving the upstream
arguments with `get_mitm_upstream_proxy_args` (its `ValueError` propagates). -/
def init_master (s : MitmProxyState) : Except String MitmProxyState := do
  let args ← get_mitm_upstream_proxy_args s.upstream_proxy
  .ok { s with master := { running := false, bound := none, upstreamArgs := args } }

/-- `MitmProxy.start`: run the engine's loop and wait until it listens. The
engine binds the configured host and port; an explicit `eph` parameter
stands for the OS-assigned port when the configured port is 0. -/
def start (eph : Nat) (s : MitmProxyState) : MitmProxyState :=
  { s with
      master :=
        { s.master with
            running := true,
            bound := some (s.host, if s.port = 0 then eph else s.port) } }

/-- `MitmProxy.address`: the first bound listen address, or
`SeleniumWireException "Proxy is not running"` when there is none. -/
def address (s : MitmProxyState) : Except String (String × Nat) :=
  match s.master.bound with
  | some a => .ok a
  | none => .error "Proxy is not running"

/-- `MitmProxy._shutdown_mitmproxy`: stop the engine and clear its server
instances, releasing the bound socket. -/
def shutdown_mitmproxy (s : MitmProxyState) : MitmProxyState :=
  { s with master := { s.master with running := false, bound := none } }

/-- `MitmProxy.update_server_mode`: read the bound address, shut the engine
down, update the options with the new upstream target and the saved
address, reconstruct a fresh engine instance, and start it. The capture
store is untouched. -/
def update_server_mode (eph : Nat) (proxy_conf : Option ProxyConfig)
    (s : MitmProxyState) : Except String MitmProxyState := do
  let (host, port) ← address s
  let s := shutdown_mitmproxy s
  let s := { s with upstream_proxy := proxy_conf, host := host, port := port }
  let s ← init_master s
  .ok (start eph s)

end MitmProxy

namespace InspectRequestsMixin

/-- The `response_interceptor` property setter of
`InspectRequestsMixin`: reject a callable whose signature does not have
exactly two parameters with a `RuntimeError` at registration time, otherwise
store it on the backend. -/
def setResponseInterceptor (interceptor : PyCallable2) (backend : ProxyCtx) :
    Except String ProxyCtx :=
  if interceptor.params ≠ 2 then
    .error "A response interceptor takes two parameters: the request and response"
  else .ok { backend with response_interceptor := some interceptor }

/-- Modelled from the spec: `storage.find(pat)` (module
`seleniumwire2/storage.py` is absent from src) returns the first request
whose url matches the pattern, scanning in capture order, or none. -/
def storageFind (rm : RegexMatch) (pat : String) (requests : List Request) :
    Option Request :=
  requests.find? fun r => rm pat r.url

/-- The polling loop of `InspectRequestsMixin.wait_for_request`: query the
store's find operation, sleep a fixed fifth of a second when nothing
matched, retry while the deadline has not passed, and raise
`TimeoutException` afterwards. Real time is abstracted: `queryAt k` is the
find result of the k-th poll and `fuel` the number of polls the timeout
allows. -/
def waitPoll (queryAt : Nat → Option Request) : Nat → Nat → Except String Request
  | 0, _ => .error "Timed out waiting for request"
  | fuel + 1, k =>
    match queryAt k with
    | some r => .ok r
    | none => waitPoll queryAt fuel (k + 1)

/-- `InspectRequestsMixin.wait_for_request` over a trace of store contents:
`storeAt k` is the request list visible at the k-th poll. -/
def wait_for_request (rm : RegexMatch) (pat : String)
    (storeAt : Nat → List Request) (fuel : Nat) : Except String Request :=
  waitPoll (fun k => storageFind rm pat (storeAt k)) fuel 0

end InspectRequestsMixin

/-- The scope decision exactly as the claim words it, for comparison with
`should_capture`: (1) ignored method, (2) no patterns configured, (3)
catch-all in exclude, (4) include non-empty and no include matches, (5) some
exclude matches, (6) otherwise in scope. -/
def scopeDecisionSpec (rm : RegexMatch) (ignored include_urls exclude_urls : List String)
    (method url : String) : Bool :=
  if method ∈ ignored then false
  else if include_urls = [] ∧ exclude_urls = [] then true
  else if ".*" ∈ exclude_urls then false
  else if include_urls ≠ [] ∧ include_urls.all (fun i => ¬ rm i url) then false
  else if exclude_urls.any (fun e => rm e url) then false
  else true

/-! ## Helper lemmas -/

theorem isPrefixOf_append_self (l r : List Char) : l.isPrefixOf (l ++ r) = true := by
  induction l with
  | nil => cases r <;> rfl
  | cons a as ih => simp [List.isPrefixOf, ih]

theorem replaceFirstAux_append (new : List Char) :
    ∀ (old rest : List Char), old ≠ [] →
      replaceFirstAux old new (old ++ rest) = new ++ rest := by
  intro old rest h
  match old, h with
  | a :: as, _ =>
    have hp : (a :: as).isPrefixOf (a :: (as ++ rest)) = true :=
      isPrefixOf_append_self (a :: as) rest
    simp [replaceFirstAux, hp, List.drop_left]

/-- The one-shot character of the rewrite: a url whose scheme is `wss://`
is rewritten to `https://` with the remainder carried over untouched, even
when the remainder contains further occurrences. -/
theorem replaceFirst_wss (rest : String) :
    replaceFirst "wss://" "https://" ("wss://" ++ rest) = "https://" ++ rest := by
  obtain ⟨r⟩ := rest
  show replaceFirst "wss://" "https://" ⟨"wss://".data ++ r⟩ = ⟨"https://".data ++ r⟩
  rw [replaceFirst, if_neg (by decide)]
  rw [replaceFirstAux_append _ _ _ (by decide)]

theorem websocket_foldl_ws (i : Nat) :
    ∀ (msgs : List WsRawMessage) (st : Storage),
      (msgs.foldl
        (fun st m =>
          st.save_ws_message i
            { from_client := m.from_client, content := m.content, date := m.timestamp })
        st).wsMessages =
      st.wsMessages ++
        msgs.map (fun m => (i, ⟨m.from_client, m.content, m.timestamp⟩)) := by
  intro msgs
  induction msgs with
  | nil => intro st; simp
  | cons m ms ih =>
    intro st
    rw [List.foldl_cons, ih]
    simp [Storage.save_ws_message]

theorem waitPoll_timeout (q : Nat → Option Request) :
    ∀ (fuel k : Nat), (∀ j, j < fuel → q (k + j) = none) →
      InspectRequestsMixin.waitPoll q fuel k = .error "Timed out waiting for request" := by
  intro fuel
  induction fuel with
  | zero => intro k _; rfl
  | succ n ih =>
    intro k h
    have h0 : q k = none := by simpa using h 0 (Nat.succ_pos n)
    rw [InspectRequestsMixin.waitPoll, h0]
    exact ih (k + 1) fun j hj => by
      have := h (j + 1) (by omega)
      rwa [show k + (j + 1) = k + 1 + j by omega] at this

theorem waitPoll_finds (q : Nat → Option Request) :
    ∀ (fuel k j : Nat) (r : Request), j < fuel →
      (∀ m, m < j → q (k + m) = none) → q (k + j) = some r →
      InspectRequestsMixin.waitPoll q fuel k = .ok r := by
  intro fuel
  induction fuel with
  | zero => intro k j r hj; omega
  | succ n ih =>
    intro k j r hj hnone hsome
    cases j with
    | zero =>
      have h0 : q k = some r := by simpa using hsome
      rw [InspectRequestsMixin.waitPoll, h0]
    | succ j =>
      have h0 : q k = none := by simpa using hnone 0 (Nat.succ_pos j)
      rw [InspectRequestsMixin.waitPoll, h0]
      refine ih (k + 1) j r (by omega) (fun m hm => ?_) ?_
      · have := hnone (m + 1) (by omega)
        rwa [show k + (m + 1) = k + 1 + m by omega] at this
      · rwa [show k + (j + 1) = k + 1 + j by omega] at hsome

theorem find_first_match {p : Request → Bool} :
    ∀ (l : List Request) (r : Request), l.find? p = some r →
      p r = true ∧ ∃ pre post, l = pre ++ r :: post ∧ ∀ x ∈ pre, p x = false := by
  intro l
  induction l with
  | nil => intro r h; simp at h
  | cons a l ih =>
    intro r h
    rw [List.find?_cons] at h
    cases hpa : p a with
    | true =>
      rw [hpa] at h
      cases h
      exact ⟨hpa, [], l, rfl, by simp⟩
    | false =>
      rw [hpa] at h
      obtain ⟨hr, pre, post, hl, hpre⟩ := ih r h
      refine ⟨hr, a :: pre, post, by simp [hl], ?_⟩
      intro x hx
      rcases List.mem_cons.mp hx with rfl | hx
      · exact hpa
      · exact hpre x hx

/-! ## Concrete fixtures used by witnesses and counterexamples -/

/-- A concrete stand-in for `re.match`: the pattern matches when it is a
prefix of the url (computed on the character lists so that the kernel can
evaluate it). -/
def sampleRm : RegexMatch := fun p u => p.data.isPrefixOf u.data

def sampleMitmRequest : MitmRequest :=
  { method := "GET", url := "https://example.com/a",
    headers := [("Accept", "text/html")], raw_content := "body" }

def sampleFlow : HTTPFlow := { request := sampleMitmRequest }

def sampleRequest : Request :=
  { method := "GET", url := "https://example.com/a",
    headers := [("Accept", "text/html")], body := "body" }

def sampleMock : Response :=
  { status_code := 201, reason := "Created", headers := [("X-Mock", "yes")], body := "mock" }

def mockInterceptor : Request → Request := fun r => { r with response := some sampleMock }

def ctxMock : ProxyCtx := { request_interceptor := some mockInterceptor }

def urlMutator : Request → Request := fun r => { r with url := "wss://mutated.example/ws" }

def ctxMut : ProxyCtx := { request_interceptor := some urlMutator }

def sampleMitmResponse : MitmResponse :=
  { status_code := 200, reason := "OK", headers := [("Content-Type", "text/html")],
    raw_content := "resp" }

def flowWithResp : HTTPFlow :=
  { sampleFlow with
      reqId := some 7, response := some sampleMitmResponse,
      serverCerts := [⟨"cert"⟩] }

def wsMsgA : WsRawMessage := { from_client := true, content := "hello", timestamp := 5 }

def wsMsgB : WsRawMessage := { from_client := false, content := "world", timestamp := 6 }

def wsFlow1 : HTTPFlow := { sampleFlow with reqId := some 0, websocket := some [wsMsgA] }

def wsFlow2 : HTTPFlow :=
  { sampleFlow with reqId := some 0, websocket := some [wsMsgA, wsMsgB] }

/-! ## Claim theorems -/

/-- C1: a request flow is persisted to the capture store iff the scope
decision is in-scope (out-of-scope flows leave flow and store untouched,
in-scope flows append exactly one request record), and `_should_capture`
decides scope exactly in the claimed order: ignored method, empty
configuration, catch-all exclude, include scan, exclude scan, otherwise
in scope. -/
theorem c1_capture_iff_scope (rm : RegexMatch) (ctx : ProxyCtx) (flow : HTTPFlow)
    (st : Storage) :
    (InterceptRequestHandler.should_capture rm ctx
        (InterceptRequestHandler.create_request flow) = false →
      InterceptRequestHandler.request rm ctx flow st = (flow, st))
  ∧ (InterceptRequestHandler.should_capture rm ctx
        (InterceptRequestHandler.create_request flow) = true →
      ∃ e, (InterceptRequestHandler.request rm ctx flow st).2.requests = st.requests ++ [e])
  ∧ (∀ req : Request, InterceptRequestHandler.should_capture rm ctx req =
      scopeDecisionSpec rm ctx.ignore_http_methods ctx.include_urls ctx.exclude_urls
        req.method req.url) := by
  refine ⟨?_, ?_, ?_⟩
  · intro h
    simp [InterceptRequestHandler.request, h]
  · intro h
    simp only [InterceptRequestHandler.request, h, Bool.not_true, Bool.false_eq_true,
      not_false_iff, if_neg]
    rcases hI : ctx.request_interceptor with _ | f
    · simp [hI, InterceptRequestHandler.create_request, Storage.save_request,
        Storage.save_response]
    · rcases hR : (f (InterceptRequestHandler.create_request flow)).response with _ | resp <;>
        simp [hI, hR, Storage.save_request, Storage.save_response]
  · intro req
    simp only [InterceptRequestHandler.should_capture, scopeDecisionSpec]
    split_ifs <;> first | rfl | (exfalso; aesop)

/-- C1 witness: with method `GET` ignored the sample flow is not persisted
and the hook is a no-op; with the default scope rules it is persisted as
exactly one appended record. -/
theorem c1_capture_iff_scope_witness :
    InterceptRequestHandler.request sampleRm { ignore_http_methods := ["GET"] }
        sampleFlow {} = (sampleFlow, {})
  ∧ ∃ e, (InterceptRequestHandler.request sampleRm {} sampleFlow {}).2.requests =
      ({} : Storage).requests ++ [e] :=
  ⟨(c1_capture_iff_scope sampleRm { ignore_http_methods := ["GET"] } sampleFlow {}).1
      (by decide),
   (c1_capture_iff_scope sampleRm {} sampleFlow {}).2.1 (by decide)⟩

/-- C2: when the request interceptor attaches a mock response to an
in-scope request, the mock's status, body and headers are written into the
live flow's response slot (suppressing upstream forwarding) while the
outgoing request is left untouched, the request snapshot is persisted, and
the mock response is persisted under the same correlation id. -/
theorem c2_mock_response_short_circuit (rm : RegexMatch) (ctx : ProxyCtx)
    (f : Request → Request) (flow : HTTPFlow) (st : Storage) (mock : Response)
    (hI : ctx.request_interceptor = some f)
    (hC : InterceptRequestHandler.should_capture rm ctx
      (InterceptRequestHandler.create_request flow) = true)
    (hM : (f (InterceptRequestHandler.create_request flow)).response = some mock) :
    (InterceptRequestHandler.request rm ctx flow st).1.response =
      some (InterceptRequestHandler.mitmResponseMake mock.status_code mock.body mock.headers)
  ∧ (InterceptRequestHandler.request rm ctx flow st).1.request = flow.request
  ∧ (InterceptRequestHandler.request rm ctx flow st).2.requests =
      st.requests ++
        [(st.nextId,
          { f (InterceptRequestHandler.create_request flow) with id := some st.nextId })]
  ∧ (InterceptRequestHandler.request rm ctx flow st).2.responses =
      st.responses ++ [(st.nextId, mock)] := by
  simp [InterceptRequestHandler.request, hC, hI, hM,
    Storage.save_request, Storage.save_response]

/-- C2 witness: the mock interceptor on the sample flow yields the mock in
the flow's response slot and both records under correlation id 0. -/
theorem c2_mock_response_short_circuit_witness :
    (InterceptRequestHandler.request sampleRm ctxMock sampleFlow {}).1.response =
      some (InterceptRequestHandler.mitmResponseMake sampleMock.status_code
        sampleMock.body sampleMock.headers)
  ∧ (InterceptRequestHandler.request sampleRm ctxMock sampleFlow {}).2.responses =
      ({} : Storage).responses ++ [(({} : Storage).nextId, sampleMock)] :=
  ⟨(c2_mock_response_short_circuit sampleRm ctxMock mockInterceptor sampleFlow {}
      sampleMock rfl (by decide) rfl).1,
   (c2_mock_response_short_circuit sampleRm ctxMock mockInterceptor sampleFlow {}
      sampleMock rfl (by decide) rfl).2.2.2⟩

/-- C3: at response-completion, a flow without a correlation id is a
complete no-op; a flow with one has its response snapshot (status, reason,
ordered headers, body, certificate chain) persisted under that id (exactly
the snapshot when no response interceptor is registered), and a HAR entry
is additionally persisted under the same id exactly when HAR capture is
enabled. -/
theorem c3_response_persist_under_id (ctx : ProxyCtx) (flow : HTTPFlow) (st : Storage) :
    (flow.reqId = none → InterceptRequestHandler.response ctx flow st = some (flow, st))
  ∧ (∀ i mresp, flow.reqId = some i → flow.response = some mresp →
      ctx.response_interceptor = none →
      InterceptRequestHandler.response ctx flow st = some (flow,
        if ctx.enable_har then
          (st.save_response i
            (InterceptRequestHandler.create_response mresp flow.serverCerts)).save_har_entry i
            (create_har_entry flow)
        else st.save_response i
          (InterceptRequestHandler.create_response mresp flow.serverCerts)))
  ∧ (∀ i mresp, flow.reqId = some i → flow.response = some mresp →
      (∃ resp, (InterceptRequestHandler.response ctx flow st).map (fun pr => pr.2.responses) =
          some (st.responses ++ [(i, resp)]))
      ∧ (ctx.enable_har = true →
          ∃ e, (InterceptRequestHandler.response ctx flow st).map (fun pr => pr.2.harEntries) =
            some (st.harEntries ++ [(i, e)]))
      ∧ (ctx.enable_har = false →
          (InterceptRequestHandler.response ctx flow st).map (fun pr => pr.2.harEntries) =
            some st.harEntries)) := by
  refine ⟨?_, ?_, ?_⟩
  · intro h
    simp [InterceptRequestHandler.response, h]
  · intro i mresp hId hR hN
    simp [InterceptRequestHandler.response, hId, hR, hN]
  · intro i mresp hId hR
    refine ⟨?_, ?_, ?_⟩
    · rcases hN : ctx.response_interceptor with _ | f <;>
        cases henh : ctx.enable_har <;>
          simp [InterceptRequestHandler.response, hId, hR, hN, henh,
            Storage.save_response, Storage.save_har_entry]
    · intro henh
      rcases hN : ctx.response_interceptor with _ | f <;>
        simp [InterceptRequestHandler.response, hId, hR, hN, henh,
          Storage.save_response, Storage.save_har_entry]
    · intro henh
      rcases hN : ctx.response_interceptor with _ | f <;>
        simp [InterceptRequestHandler.response, hId, hR, hN, henh,
          Storage.save_response, Storage.save_har_entry]

/-- C3 witness: a flow without a correlation id is untouched; the sample
flow with id 7 has its snapshot persisted under id 7 and, HAR being
disabled, no HAR entry. -/
theorem c3_response_persist_under_id_witness :
    InterceptRequestHandler.response {} sampleFlow {} = some (sampleFlow, {})
  ∧ InterceptRequestHandler.response {} flowWithResp {} = some (flowWithResp,
      Storage.save_response {} 7
        (InterceptRequestHandler.create_response sampleMitmResponse [⟨"cert"⟩]))
  ∧ (∃ resp, (InterceptRequestHandler.response {} flowWithResp {}).map
      (fun pr => pr.2.responses) = some (({} : Storage).responses ++ [(7, resp)])) :=
  ⟨(c3_response_persist_under_id {} sampleFlow {}).1 rfl,
   (c3_response_persist_under_id {} flowWithResp {}).2.1 7 sampleMitmResponse rfl rfl rfl,
   ((c3_response_persist_under_id {} flowWithResp {}).2.2 7 sampleMitmResponse rfl rfl).1⟩

/-- C4: for an in-scope request whose registered interceptor did not
produce a mock response, the interceptor-mutated method, url, headers and
body are written back into the live outgoing request, with the
`wss://` scheme rewritten to `https://` exactly once (the remainder of the
url, further occurrences included, is carried over untouched), and the
persisted record carries the mutated url, never the original. -/
theorem c4_writeback_and_wss_rewrite (rm : RegexMatch) (ctx : ProxyCtx)
    (f : Request → Request) (flow : HTTPFlow) (st : Storage)
    (hI : ctx.request_interceptor = some f)
    (hC : InterceptRequestHandler.should_capture rm ctx
      (InterceptRequestHandler.create_request flow) = true)
    (hM : (f (InterceptRequestHandler.create_request flow)).response = none) :
    (InterceptRequestHandler.request rm ctx flow st).1.request =
      { method := (f (InterceptRequestHandler.create_request flow)).method,
        url := replaceFirst "wss://" "https://"
          (f (InterceptRequestHandler.create_request flow)).url,
        headers := (f (InterceptRequestHandler.create_request flow)).headers,
        raw_content := (f (InterceptRequestHandler.create_request flow)).body }
  ∧ (InterceptRequestHandler.request rm ctx flow st).2.requests =
      st.requests ++
        [(st.nextId,
          { f (InterceptRequestHandler.create_request flow) with id := some st.nextId })]
  ∧ (∀ rest : String,
      replaceFirst "wss://" "https://" ("wss://" ++ rest) = "https://" ++ rest) := by
  refine ⟨?_, ?_, replaceFirst_wss⟩ <;>
    simp [InterceptRequestHandler.request, hC, hI, hM,
      InterceptRequestHandler.to_headers_obj, Storage.save_request, Storage.save_response]

/-- C4 witness: the url-mutating interceptor leaves the live request with
the rewritten `https://mutated.example/ws` while the persisted record
carries the mutated `wss://mutated.example/ws`. -/
theorem c4_writeback_and_wss_rewrite_witness :
    (InterceptRequestHandler.request sampleRm ctxMut sampleFlow {}).1.request =
      { method := (urlMutator (InterceptRequestHandler.create_request sampleFlow)).method,
        url := replaceFirst "wss://" "https://"
          (urlMutator (InterceptRequestHandler.create_request sampleFlow)).url,
        headers := (urlMutator (InterceptRequestHandler.create_request sampleFlow)).headers,
        raw_content := (urlMutator (InterceptRequestHandler.create_request sampleFlow)).body }
  ∧ (InterceptRequestHandler.request sampleRm ctxMut sampleFlow {}).2.requests =
      ({} : Storage).requests ++
        [(({} : Storage).nextId,
          { urlMutator (InterceptRequestHandler.create_request sampleFlow) with
              id := some ({} : Storage).nextId })] :=
  ⟨(c4_writeback_and_wss_rewrite sampleRm ctxMut urlMutator sampleFlow {}
      rfl (by decide) rfl).1,
   (c4_writeback_and_wss_rewrite sampleRm ctxMut urlMutator sampleFlow {}
      rfl (by decide) rfl).2.1⟩

/-- C5 counterexample: the claim that no message is persisted more than
once across repeated hook invocations is false. After the hook fires once
with the stream holding message A and once more with the stream holding A
and B — exactly how mitmproxy grows `flow.websocket.messages` — message A
is persisted twice. -/
theorem c5_ws_counterexample :
    ((InterceptRequestHandler.websocket_message wsFlow2
        (InterceptRequestHandler.websocket_message wsFlow1 {})).wsMessages.count
      (0, { from_client := true, content := "hello", date := 5 })) = 2 := by
  decide

/-- C5 (amended): whenever the hook fires on a flow whose originating
request has a correlation id and an active message stream, it builds a
`WebSocketMessage` (direction flag, content, timestamp taken from the
message's recorded time) for every message currently in the stream and
persists each under that correlation id — so one invocation persists the
whole stream observed so far, not only the newly observed message; without
a correlation id or stream nothing is persisted. -/
theorem c5_ws_persist_all_current (flow : HTTPFlow) (st : Storage) :
    (∀ i msgs, flow.reqId = some i → flow.websocket = some msgs →
      (InterceptRequestHandler.websocket_message flow st).wsMessages =
        st.wsMessages ++
          msgs.map (fun m => (i, ⟨m.from_client, m.content, m.timestamp⟩)))
  ∧ (flow.reqId = none → InterceptRequestHandler.websocket_message flow st = st)
  ∧ (flow.websocket = none → InterceptRequestHandler.websocket_message flow st = st) := by
  refine ⟨?_, ?_, ?_⟩
  · intro i msgs hId hW
    simp [InterceptRequestHandler.websocket_message, hId, hW, websocket_foldl_ws]
  · intro h
    simp [InterceptRequestHandler.websocket_message, h]
  · intro h
    rcases hId : flow.reqId with _ | i <;>
      simp [InterceptRequestHandler.websocket_message, h, hId]

/-- C5 witness: one invocation on the two-message stream persists both
messages under the flow's correlation id 0. -/
theorem c5_ws_persist_all_current_witness :
    (InterceptRequestHandler.websocket_message wsFlow2 {}).wsMessages =
      ({} : Storage).wsMessages ++
        [wsMsgA, wsMsgB].map (fun m => (0, ⟨m.from_client, m.content, m.timestamp⟩)) :=
  (c5_ws_persist_all_current wsFlow2 {}).1 0 [wsMsgA, wsMsgB] rfl rfl

/-- C6: registering a response interceptor whose callable does not take
exactly two parameters fails with an error at registration time, before
any flow is processed; a two-parameter callable is accepted and stored on
the backend. -/
theorem c6_response_interceptor_arity (backend : ProxyCtx) (c : PyCallable2) :
    (c.params ≠ 2 →
      InspectRequestsMixin.setResponseInterceptor c backend =
        .error "A response interceptor takes two parameters: the request and response")
  ∧ (c.params = 2 →
      InspectRequestsMixin.setResponseInterceptor c backend =
        .ok { backend with response_interceptor := some c }) := by
  constructor
  · intro h
    simp [InspectRequestsMixin.setResponseInterceptor, h]
  · intro h
    simp [InspectRequestsMixin.setResponseInterceptor, h]

def oneParamCallable : PyCallable2 := { params := 1, fn := fun _ r => r }

def twoParamCallable : PyCallable2 := { params := 2, fn := fun _ r => r }

/-- C6 witness: a one-parameter callable is rejected with the error, a
two-parameter callable is stored. -/
theorem c6_response_interceptor_arity_witness :
    InspectRequestsMixin.setResponseInterceptor oneParamCallable {} =
      .error "A response interceptor takes two parameters: the request and response"
  ∧ InspectRequestsMixin.setResponseInterceptor twoParamCallable {} =
      .ok { ({} : ProxyCtx) with response_interceptor := some twoParamCallable } :=
  ⟨(c6_response_interceptor_arity {} oneParamCallable).1 (by decide),
   (c6_response_interceptor_arity {} twoParamCallable).2 rfl⟩

/-- C7: the hot swap reads the currently bound (host, port), rebuilds and
restarts a fresh engine instance configured with the new upstream target on
the same host and port, and carries the capture store through unchanged, so
previously captured records remain afterwards. -/
theorem c7_hot_swap_preserves_address_and_store (eph : Nat) (conf : Option ProxyConfig)
    (s : MitmProxyState) (host0 : String) (port0 : Nat) (args : UpstreamArgs)
    (hA : MitmProxy.address s = .ok (host0, port0)) (hp : port0 ≠ 0)
    (hU : get_mitm_upstream_proxy_args conf = .ok args) :
    MitmProxy.update_server_mode eph conf s = .ok
      { host := host0, port := port0, upstream_proxy := conf,
        master := { running := true, bound := some (host0, port0), upstreamArgs := args },
        storage := s.storage } := by
  simp [MitmProxy.update_server_mode, hA, MitmProxy.shutdown_mitmproxy,
    MitmProxy.init_master, hU, MitmProxy.start, hp, Except.bind, bind]

def runningProxyState : MitmProxyState :=
  { host := "127.0.0.1", port := 0,
    master := { running := true, bound := some ("127.0.0.1", 8087), upstreamArgs := {} },
    storage := { nextId := 1, requests := [(0, sampleRequest)] } }

def swapTarget : ProxyConfig :=
  { http := some { scheme := "http", hostport := "proxy.internal:3128" } }

/-- C7 witness: swapping a running instance bound at 127.0.0.1:8087 to a
new upstream target keeps the address and the previously captured
request. -/
theorem c7_hot_swap_preserves_address_and_store_witness :
    MitmProxy.update_server_mode 5 (some swapTarget) runningProxyState = .ok
      { host := "127.0.0.1", port := 8087, upstream_proxy := some swapTarget,
        master :=
          { running := true, bound := some ("127.0.0.1", 8087),
            upstreamArgs :=
              upstreamArgsOf { scheme := "http", hostport := "proxy.internal:3128" } },
        storage := runningProxyState.storage } :=
  c7_hot_swap_preserves_address_and_store 5 (some swapTarget) runningProxyState
    "127.0.0.1" 8087
    (upstreamArgsOf { scheme := "http", hostport := "proxy.internal:3128" })
    rfl (by decide) rfl

/-- C8: deriving the upstream arguments fails eagerly when http and https
targets disagree on host:port; when they agree or only one is given, a
single upstream mode argument is produced and embedded user:pass
credentials become a single upstream-auth pair, absent credentials meaning
no auth argument; with no upstream config the argument map is empty. -/
theorem c8_upstream_args_derivation (cfg : ProxyConfig) (hp sp : ProxyConf) :
    (cfg.http = some hp → cfg.https = some sp → hp.hostport ≠ sp.hostport →
      get_mitm_upstream_proxy_args (some cfg) =
        .error "Different settings for http and https proxy servers not supported")
  ∧ (cfg.http = some hp → cfg.https = some sp → hp.hostport = sp.hostport →
      get_mitm_upstream_proxy_args (some cfg) = .ok (upstreamArgsOf sp))
  ∧ (cfg.http = some hp → cfg.https = none →
      get_mitm_upstream_proxy_args (some cfg) = .ok (upstreamArgsOf hp))
  ∧ (cfg.http = none → cfg.https = some sp →
      get_mitm_upstream_proxy_args (some cfg) = .ok (upstreamArgsOf sp))
  ∧ (get_mitm_upstream_proxy_args none = .ok {})
  ∧ (∀ c : ProxyConf, c.username = none → (upstreamArgsOf c).upstream_auth = none)
  ∧ (∀ (c : ProxyConf) (u pw : String), c.username = some u → u ≠ "" →
      c.password = some pw → (upstreamArgsOf c).upstream_auth = some (u ++ ":" ++ pw))
  ∧ (∀ c : ProxyConf, (upstreamArgsOf c).mode =
      some ("upstream:" ++ c.scheme ++ "://" ++ c.hostport)) := by
  refine ⟨?_, ?_, ?_, ?_, rfl, ?_, ?_, ?_⟩
  · intro h1 h2 h3
    simp [get_mitm_upstream_proxy_args, h1, h2, h3]
  · intro h1 h2 h3
    simp [get_mitm_upstream_proxy_args, h1, h2, h3]
  · intro h1 h2
    simp [get_mitm_upstream_proxy_args, h1, h2]
  · intro h1 h2
    simp [get_mitm_upstream_proxy_args, h1, h2]
  · intro c h
    simp [upstreamArgsOf, h]
  · intro c u pw h1 h2 h3
    simp [upstreamArgsOf, h1, h2, h3, pyFormat]
  · intro c
    simp [upstreamArgsOf]

def httpConfWithCreds : ProxyConf :=
  { scheme := "http", username := some "user", password := some "secret",
    hostport := "proxy:3128" }

def httpsConfNoCreds : ProxyConf := { scheme := "https", hostport := "proxy:3128" }

def httpsConfOther : ProxyConf := { scheme := "https", hostport := "other:9999" }

/-- C8 witness: disagreeing host:port pairs fail eagerly; an agreeing pair
produces the https mode argument; credentials embedded in a single target
become the auth pair, and a target without credentials produces none. -/
theorem c8_upstream_args_derivation_witness :
    get_mitm_upstream_proxy_args
        (some { http := some httpConfWithCreds, https := some httpsConfOther }) =
      .error "Different settings for http and https proxy servers not supported"
  ∧ get_mitm_upstream_proxy_args
        (some { http := some httpConfWithCreds, https := some httpsConfNoCreds }) =
      .ok (upstreamArgsOf httpsConfNoCreds)
  ∧ (upstreamArgsOf httpConfWithCreds).upstream_auth = some ("user" ++ ":" ++ "secret")
  ∧ (upstreamArgsOf httpsConfNoCreds).upstream_auth = none :=
  ⟨(c8_upstream_args_derivation
      { http := some httpConfWithCreds, https := some httpsConfOther }
      httpConfWithCreds httpsConfOther).1 rfl rfl (by decide),
   (c8_upstream_args_derivation
      { http := some httpConfWithCreds, https := some httpsConfNoCreds }
      httpConfWithCreds httpsConfNoCreds).2.1 rfl rfl (by decide),
   (c8_upstream_args_derivation
      { http := some httpConfWithCreds, https := some httpsConfNoCreds }
      httpConfWithCreds httpsConfNoCreds).2.2.2.2.2.2.1 httpConfWithCreds "user" "secret"
      rfl (by decide) rfl,
   (c8_upstream_args_derivation
      { http := some httpConfWithCreds, https := some httpsConfNoCreds }
      httpConfWithCreds httpsConfNoCreds).2.2.2.2.2.1 httpsConfNoCreds rfl⟩

/-- C9: the blocking wait polls the store's find operation once per
attempt; it returns the result of the first poll on which find succeeds —
which is the earliest-captured matching request of that snapshot, as the
third conjunct shows — and raises the timeout error, rather than returning
a request, when every poll within the deadline comes back empty. -/
theorem c9_wait_for_request (rm : RegexMatch) (pat : String)
    (storeAt : Nat → List Request) (fuel : Nat) :
    ((∀ k, k < fuel → InspectRequestsMixin.storageFind rm pat (storeAt k) = none) →
      InspectRequestsMixin.wait_for_request rm pat storeAt fuel =
        .error "Timed out waiting for request")
  ∧ (∀ j r, j < fuel →
      (∀ k, k < j → InspectRequestsMixin.storageFind rm pat (storeAt k) = none) →
      InspectRequestsMixin.storageFind rm pat (storeAt j) = some r →
      InspectRequestsMixin.wait_for_request rm pat storeAt fuel = .ok r)
  ∧ (∀ (requests : List Request) (r : Request),
      InspectRequestsMixin.storageFind rm pat requests = some r →
      rm pat r.url = true ∧ ∃ pre post, requests = pre ++ r :: post ∧
        ∀ x ∈ pre, rm pat x.url = false) := by
  refine ⟨?_, ?_, ?_⟩
  · intro h
    exact waitPoll_timeout _ fuel 0 fun j hj => by simpa using h j hj
  · intro j r hj hnone hsome
    exact waitPoll_finds _ fuel 0 j r hj (fun m hm => by simpa using hnone m hm)
      (by simpa using hsome)
  · intro requests r h
    exact find_first_match requests r h

def emptyTrace : Nat → List Request := fun _ => []

def appearTrace : Nat → List Request := fun k => if k = 0 then [] else [sampleRequest]

/-- C9 witness: a store that never matches times out after its polls; a
request appearing at the second poll is returned. -/
theorem c9_wait_for_request_witness :
    InspectRequestsMixin.wait_for_request sampleRm "https://" emptyTrace 2 =
      .error "Timed out waiting for request"
  ∧ InspectRequestsMixin.wait_for_request sampleRm "https://" appearTrace 3 =
      .ok sampleRequest :=
  ⟨(c9_wait_for_request sampleRm "https://" emptyTrace 2).1 (by decide),
   (c9_wait_for_request sampleRm "https://" appearTrace 3).2.1 1 sampleRequest
      (by decide) (by decide) (by decide)⟩

/-- C10: with no request interceptor registered, an in-scope request is
still snapshotted and persisted, but nothing is written back into the live
outgoing request — method, url, headers and body are forwarded exactly as
received, and in particular the wss-to-https rewrite is not applied. -/
theorem c10_no_interceptor_no_writeback (rm : RegexMatch) (ctx : ProxyCtx)
    (flow : HTTPFlow) (st : Storage)
    (hI : ctx.request_interceptor = none)
    (hC : InterceptRequestHandler.should_capture rm ctx
      (InterceptRequestHandler.create_request flow) = true) :
    InterceptRequestHandler.request rm ctx flow st =
      ({ flow with reqId := some st.nextId },
       { st with
           nextId := st.nextId + 1,
           requests :=
             st.requests ++
               [(st.nextId,
                 { InterceptRequestHandler.create_request flow with id := some st.nextId })] })
  ∧ (InterceptRequestHandler.request rm ctx flow st).1.request = flow.request
  ∧ (InterceptRequestHandler.request rm ctx flow st).1.request.url = flow.request.url := by
  have hC2 : InterceptRequestHandler.should_capture rm ctx
      { id := none, method := flow.request.method, url := flow.request.url,
        headers := flow.request.headers, body := flow.request.raw_content,
        response := none } = true := hC
  refine ⟨?_, ?_, ?_⟩ <;>
    simp [InterceptRequestHandler.request, hC2, hI, Storage.save_request,
      Storage.save_response, InterceptRequestHandler.create_request]

def wssFlow : HTTPFlow :=
  { request :=
      { method := "GET", url := "wss://example.com/socket",
        headers := [("Upgrade", "websocket")], raw_content := "" } }

/-- C10 witness: a `wss://` request captured without an interceptor keeps
its url (no rewrite) and is persisted. -/
theorem c10_no_interceptor_no_writeback_witness :
    (InterceptRequestHandler.request sampleRm {} wssFlow {}).1.request = wssFlow.request
  ∧ (InterceptRequestHandler.request sampleRm {} wssFlow {}).1.request.url =
      wssFlow.request.url :=
  ⟨(c10_no_interceptor_no_writeback sampleRm {} wssFlow {} rfl (by decide)).2.1,
   (c10_no_interceptor_no_writeback sampleRm {} wssFlow {} rfl (by decide)).2.2⟩
